import Mathlib

/-!
# EduMood (`src/app.py`) — verification of the specification claims

Shallow embedding of the EduMood Flask application (`src/app.py`) in Lean 4,
together with theorems settling the frozen claims about it.

Modelling conventions:

* A stored feedback entry (the dicts appended to `data.json`) is `Record`.
* The JSON library (`json.dump` / `json.load`) and the on-disk file are
  external collaborators; they are modelled by a `JsonLib` structure over an
  abstract content type `α`: `dumps` is `json.dump`, `loads` is `json.load`
  returning `none` where Python raises `json.JSONDecodeError`, and `isEmpty`
  models `os.path.getsize _ == 0`.  The file itself is `Option α`
  (`none` = absent file).
* The Gemini call (`client.models.generate_content` plus
  `json.loads(response.text)`) is an external collaborator whose outcome is a
  `CallOutcome`: a parsed response object with possibly-missing fields, an
  `APIError`, or any other exception (which includes an unparsable
  `response.text`).
* `datetime.datetime.fromtimestamp(ts).strftime("%Y-%m-%d")` depends on the
  server time zone; it is modelled by an arbitrary function
  `dayOf : Int → String` from timestamps to date strings.
* Python `float` division and `round(x, 3)` are idealised over `ℚ`, with
  `round` as round-half-to-even (the Python rounding mode) to 3 decimals.
-/

namespace EduMood

/-- A stored feedback record: the dict built in `submit_feedback`
(`src/app.py` lines 167–172) with keys `timestamp`, `feedback`, `emotion`,
`reasoning`. -/
structure Record where
  timestamp : Int
  feedback : String
  emotion : String
  reasoning : String
deriving DecidableEq, Repr

/-- Constant `EMOTION_CATEGORIES` (`src/app.py` lines 36–42). -/
def EMOTION_CATEGORIES : List String :=
  ["Happy/Engaged", "Neutral/Calm", "Confused", "Bored/Drowsy", "Frustrated/Stressed"]

/-- External JSON/file collaborator: `dumps` models `json.dump`, `loads`
models `json.load` (`none` = `json.JSONDecodeError`), `isEmpty` models
`os.path.getsize(DATA_FILE) == 0`. -/
structure JsonLib (α : Type) where
  dumps : List Record → α
  loads : α → Option (List Record)
  isEmpty : α → Bool

/-- The backing file: `none` models `not os.path.exists(DATA_FILE)`. -/
def FileState (α : Type) := Option α

/-- Function `load_data` (`src/app.py` lines 48–63): missing or zero-size file yields
`[]`; otherwise `json.load`, with a decode error caught, logged and turned
into `[]`. -/
def load_data (J : JsonLib α) (fs : FileState α) : List Record :=
  match fs with
  | none => []
  | some s =>
    if J.isEmpty s then []
    else
      match J.loads s with
      | some records => records
      | none => []

/-- Function `save_data` (`src/app.py` lines 66–69): rewrites the whole file with the
serialized list. -/
def save_data (J : JsonLib α) (data : List Record) : FileState α :=
  some (J.dumps data)

/-- The append performed by `submit_feedback` (`src/app.py` lines 163–174):
`all_data = load_data(); all_data.append(new_entry); save_data(all_data)`. -/
def appendRecord (J : JsonLib α) (fs : FileState α) (r : Record) : FileState α :=
  save_data J (load_data J fs ++ [r])

/-- The object parsed from `response.text` by `json.loads` in
`classify_emotion_gemini`: a dict whose `emotion` / `reasoning` keys may be
missing (`none`), since the code never checks them before subscripting. -/
structure GeminiResponse where
  emotion : Option String
  reasoning : Option String
deriving DecidableEq, Repr

/-- Outcome of the external `client.models.generate_content` call followed by
`json.loads(response.text)` (`src/app.py` lines 107–117): a parsed response,
an `APIError`, or any other exception (which includes `json.loads` failing on
`response.text`). -/
inductive CallOutcome
  | ok (resp : GeminiResponse)
  | apiError
  | otherError
deriving DecidableEq, Repr

/-- The first component of the pair returned by `classify_emotion_gemini`:
either the parsed response dict or an error dict `{"error": msg}`. -/
inductive ClassifyPayload
  | parsed (resp : GeminiResponse)
  | errorMsg (msg : String)
deriving DecidableEq, Repr

/-- Function `classify_emotion_gemini` (`src/app.py` lines 72–124), as a function of
whether the module-level `client` initialised (`clientOk`) and of the outcome
of the external call.  Returns the `(payload, status_code)` pair the Python
function returns. -/
def classify_emotion_gemini (clientOk : Bool) (call : CallOutcome) :
    ClassifyPayload × Nat :=
  if !clientOk then
    (.errorMsg "AI client not initialized (check API key).", 500)
  else
    match call with
    | .ok resp => (.parsed resp, 200)
    | .apiError => (.errorMsg "AI service temporarily unavailable.", 503)
    | .otherError => (.errorMsg "An unexpected error occurred during processing.", 500)

/-- The whitespace set stripped by the Python `str.strip()` with no
arguments (ASCII part). -/
def pyIsSpace (c : Char) : Bool :=
  c == ' ' || c == '\t' || c == '\n' || c == '\r' || c == '\x0b' || c == '\x0c'

/-- Python `str.strip()`: remove leading and trailing whitespace. -/
def pyStrip (s : String) : String :=
  ⟨((s.data.dropWhile pyIsSpace).reverse.dropWhile pyIsSpace).reverse⟩

/-- The HTTP response produced by `submit_feedback`:
* `payloadJson p s` — `jsonify(emotion_result), status_code` on the
  non-200 classifier path (line 161);
* `errorJson msg s` — `jsonify({"error": msg}), s` (the 400 path, line 155);
* `recordJson r s` — `jsonify(new_entry), 200` (line 176);
* `unhandledException` — an uncaught `KeyError` when `emotion_result`
  lacks `emotion` or `reasoning` (lines 170–171); Flask turns it into a
  500 Internal Server Error. -/
inductive SubmitResp
  | payloadJson (payload : ClassifyPayload) (status : Nat)
  | errorJson (msg : String) (status : Nat)
  | recordJson (entry : Record) (status : Nat)
  | unhandledException
deriving DecidableEq, Repr

/-- The HTTP status the caller observes for a `SubmitResp`. -/
def SubmitResp.statusOf : SubmitResp → Nat
  | .payloadJson _ s => s
  | .errorJson _ s => s
  | .recordJson _ s => s
  | .unhandledException => 500

/-- Result of one `POST /submit_feedback`: the response, the resulting file
state, and whether the external classifier was invoked. -/
structure SubmitResult (α : Type) where
  resp : SubmitResp
  fs : FileState α
  classifierCalled : Bool

/-- Route `submit_feedback` (`src/app.py` lines 146–176).  `now` is the value of
`int(time.time())` at the request; `clientOk` and `call` feed
`classify_emotion_gemini`. -/
def submit_feedback (J : JsonLib α) (clientOk : Bool) (call : CallOutcome)
    (formFeedback : String) (now : Int) (fs : FileState α) : SubmitResult α :=
  let feedback_text := pyStrip formFeedback
  if feedback_text = "" then
    ⟨.errorJson "No feedback text provided." 400, fs, false⟩
  else
    let res := classify_emotion_gemini clientOk call
    if res.2 ≠ 200 then
      ⟨.payloadJson res.1 res.2, fs, true⟩
    else
      match res.1 with
      | .parsed resp =>
        match resp.emotion, resp.reasoning with
        | some e, some r =>
          let new_entry : Record := ⟨now, feedback_text, e, r⟩
          ⟨.recordJson new_entry 200, appendRecord J fs new_entry, true⟩
        | _, _ => ⟨.unhandledException, fs, true⟩
      | .errorMsg _ => ⟨.unhandledException, fs, true⟩

/-! ## CSV export (`download_csv`, `src/app.py` lines 187–217) -/

/-- One CSV field as written by the `csv` module with the default dialect
(`QUOTE_MINIMAL`): a field containing the delimiter, the quote character or a
line break is quoted, with inner quotes doubled. -/
def csvField (s : String) : String :=
  if s.data.any (fun c => c == ',' || c == '"' || c == '\r' || c == '\n') then
    "\"" ++ s.replace "\"" "\"\"" ++ "\""
  else s

/-- One CSV row: comma-separated fields terminated by the default
`lineterminator` CRLF. -/
def csvRow (fields : List String) : String :=
  String.intercalate "," (fields.map csvField) ++ "\r\n"

/-- The row `csv.DictWriter.writerows` writes for one record, in the
`fieldnames` order `["timestamp", "feedback", "emotion", "reasoning"]`. -/
def recordCsvRow (r : Record) : String :=
  csvRow [toString r.timestamp, r.feedback, r.emotion, r.reasoning]

/-- Response of `GET /download_csv`: either the plain-text 404 or a CSV file
attachment. -/
inductive CsvResult
  | noData (msg : String) (status : Nat)
  | file (content : String)
deriving DecidableEq, Repr

/-- Route `download_csv` (`src/app.py` lines 187–217) as a function of the loaded
store contents. -/
def download_csv (all_data : List Record) : CsvResult :=
  if all_data.isEmpty then
    .noData "No data available to download." 404
  else
    .file (csvRow ["timestamp", "feedback", "emotion", "reasoning"] ++
      String.join (all_data.map recordCsvRow))

/-! ## Trend aggregation (`time_series_data`, `src/app.py` lines 220–256) -/

/-- The negative-emotion subset hard-coded at `src/app.py` line 242. -/
def NEGATIVE_EMOTIONS : List String :=
  ["Confused", "Frustrated/Stressed", "Bored/Drowsy"]

/-- Test `entry["emotion"] in ["Confused", "Frustrated/Stressed", "Bored/Drowsy"]`. -/
def isNegative (emotion : String) : Bool :=
  NEGATIVE_EMOTIONS.contains emotion

/-- The `daily_data` dict: an insertion-ordered association list from date
string to `(negative_count, total_count)`, mirroring a Python dict. -/
abbrev DayCounts := List (String × Nat × Nat)

/-- Association-list lookup, mirroring the Python dict access
`daily_data[date_str]`. -/
def findDay (d : String) : DayCounts → Option (Nat × Nat)
  | [] => none
  | p :: ps => if p.1 = d then some p.2 else findDay d ps

/-- The counter update of `src/app.py` lines 239–243 on one `(negative_count,
total_count)` value: `total_count += 1` always, `negative_count += 1` when
the emotion is negative. -/
def bumpCounts (neg : Bool) (v : Nat × Nat) : Nat × Nat :=
  ((if neg then v.1 + 1 else v.1), v.2 + 1)

/-- The body of the `for entry in all_data` loop (`src/app.py` lines
232–243): create the day entry if absent (Python dicts append new keys at the
end), then update the counters of the entry at that key. -/
def bump (dayOf : Int → String) (acc : DayCounts) (entry : Record) : DayCounts :=
  let d := dayOf entry.timestamp
  let acc := if acc.any (fun p => p.1 == d) then acc else acc ++ [(d, 0, 0)]
  acc.map fun p =>
    if p.1 = d then (p.1, bumpCounts (isNegative entry.emotion) p.2) else p

/-- Round-half-to-even (the rounding mode of the Python built-in `round`)
of the ratio `a / b`, for `b > 0`: the nearest integer, ties going to the
even neighbour.  `a.fdiv b` and `a.fmod b` are floor division and its
remainder, so `0 ≤ r < b` and `a / b = q + r / b`. -/
def roundRatioHalfEven (a b : ℤ) : ℤ :=
  let q := a.fdiv b
  let r := a.fmod b
  if 2 * r < b then q
  else if b < 2 * r then q + 1
  else if q % 2 = 0 then q else q + 1

/-- Call `round(index, 3)`: round to 3 decimal places, half to even, idealised
over `ℚ` (`q * 1000 = (q.num * 1000) / q.den` with `q.den > 0`). -/
def round3 (q : ℚ) : ℚ :=
  Rat.divInt (roundRatioHalfEven (q.num * 1000) (q.den : ℤ)) 1000

/-- One element of the `chart_data` list. -/
structure TrendPoint where
  date : String
  confusion_index : ℚ
deriving DecidableEq, Repr

/-- Lexicographic comparison of character lists by code point: how Python
compares the `"%Y-%m-%d"` date strings when sorting. -/
def lexLe : List Char → List Char → Bool
  | [], _ => true
  | _ :: _, [] => false
  | a :: as, b :: bs =>
    if a.toNat < b.toNat then true
    else if b.toNat < a.toNat then false
    else lexLe as bs

/-- String comparison by code points (the Python `str` order). -/
def strLeb (s t : String) : Bool := lexLe s.data t.data

/-- The comparison `sorted(daily_data.items())` uses: lexicographic on the
`(key, value)` tuples, which on distinct keys is comparison of keys. -/
def dayLE (p q : String × Nat × Nat) : Prop := strLeb p.1 q.1 = true

instance : DecidableRel dayLE := fun p q =>
  inferInstanceAs (Decidable (strLeb p.1 q.1 = true))

/-- Route `time_series_data` (`src/app.py` lines 220–256) as a function of the
loaded store contents and of the timestamp-to-date conversion `dayOf`
(`datetime.datetime.fromtimestamp(...).strftime("%Y-%m-%d")`, which depends
on the server time zone).  `sorted` in Python is a stable sort; on the
distinct keys of `daily_data` any sort for the same total order produces
the same list, so `insertionSort` models it exactly. -/
def time_series_data (dayOf : Int → String) (all_data : List Record) :
    List TrendPoint :=
  if all_data.isEmpty then []
  else
    let daily_data := all_data.foldl (bump dayOf) []
    (daily_data.insertionSort dayLE).map fun p =>
      ⟨p.1, round3 (Rat.divInt (p.2.1 : ℤ) (p.2.2 : ℤ))⟩

/-- Specification-side reading (spec §4.2): the total number of records whose
timestamp falls on day `d`. -/
def spec_total_count (dayOf : Int → String) (d : String) (rs : List Record) : Nat :=
  rs.countP fun r => dayOf r.timestamp == d

/-- Specification-side reading (spec §4.2): the number of records on day `d`
whose emotion is in the negative subset. -/
def spec_negative_count (dayOf : Int → String) (d : String) (rs : List Record) : Nat :=
  rs.countP fun r => dayOf r.timestamp == d && isNegative r.emotion

/-! ## Concrete instances used in examples and witnesses -/

/-- A concrete instance of the server-time-zone-dependent conversion from
timestamps to `"%Y-%m-%d"` strings, restricted to the first two epoch days
(86400 seconds per day). -/
def exampleDayOf : Int → String := fun ts =>
  if ts < 86400 then "1970-01-01" else "1970-01-02"

/-- Records forming `{day1: 2 negative of 4, day2: 0 negative of 3}`:
4 records on the first epoch day of which 2 have negative emotions, and
3 records on the second epoch day of which none do. -/
def exampleRecords : List Record :=
  [⟨10, "a", "Confused", "r"⟩, ⟨20, "b", "Happy/Engaged", "r"⟩,
   ⟨30, "c", "Frustrated/Stressed", "r"⟩, ⟨40, "d", "Neutral/Calm", "r"⟩,
   ⟨86500, "e", "Happy/Engaged", "r"⟩, ⟨86600, "f", "Neutral/Calm", "r"⟩,
   ⟨86700, "g", "Happy/Engaged", "r"⟩]

/-- A trivially correct instantiation of the external JSON collaborator
(content type `α := List Record`, identity serialization), used to evaluate
the store theorems on concrete inputs. -/
def demoJsonLib : JsonLib (List Record) :=
  ⟨fun l => l, fun l => some l, fun _ => false⟩

/-- A concrete record used in witnesses. -/
def demoRecord1 : Record := ⟨1000, "ok", "Confused", "r"⟩

/-- A second concrete record used in witnesses. -/
def demoRecord2 : Record := ⟨2000, "meh", "Happy/Engaged", "s"⟩

/-- A `JsonLib` over `String` contents whose `isEmpty` is the size-zero test,
used to instantiate the save-discipline analysis concretely. -/
def demoStringJsonLib : JsonLib String :=
  ⟨fun l => toString l.length, fun _ => none, fun s => s == ""⟩

/-- The sequence of backing-file contents a concurrent reader can observe
while `save_data` runs (`src/app.py` lines 66–69): `open(DATA_FILE, "w")`
first truncates the file in place to size zero, then `json.dump` writes the
serialized list.  `truncated` is the size-zero content.  A write-then-replace
discipline would instead expose only the final state `save_data J data`. -/
def save_data_trace (J : JsonLib α) (truncated : α) (data : List Record) :
    List (FileState α) :=
  [some truncated, some (J.dumps data)]

/-! ## Properties of the daily aggregation -/

theorem findDay_append_single (d d' : String) (v : Nat × Nat) (l : DayCounts) :
    findDay d (l ++ [(d', v)]) =
      match findDay d l with
      | some w => some w
      | none => if d' = d then some v else none := by
  induction l with
  | nil => simp [findDay]
  | cons p ps ih =>
    simp only [List.cons_append, findDay, List.append_eq]
    by_cases hb : p.1 = d
    · rw [if_pos hb, if_pos hb]
    · rw [if_neg hb, if_neg hb, ih]

theorem findDay_map_update_self (d : String) (g : Nat × Nat → Nat × Nat)
    (l : DayCounts) :
    findDay d (l.map fun p => if p.1 = d then (p.1, g p.2) else p) =
      (findDay d l).map g := by
  induction l with
  | nil => simp [findDay]
  | cons p ps ih =>
    by_cases hb : p.1 = d
    · simp only [List.map_cons, findDay, if_pos hb]
      rfl
    · simp only [List.map_cons, findDay, if_neg hb, ih]

theorem findDay_map_update_ne (d d' : String) (hne : d' ≠ d)
    (g : Nat × Nat → Nat × Nat) (l : DayCounts) :
    findDay d (l.map fun p => if p.1 = d' then (p.1, g p.2) else p) =
      findDay d l := by
  induction l with
  | nil => simp [findDay]
  | cons p ps ih =>
    by_cases hb : p.1 = d'
    · have hpd : p.1 ≠ d := hb ▸ hne
      simp only [List.map_cons, findDay, if_pos hb]
      rw [if_neg hpd, if_neg hpd, ih]
    · simp only [List.map_cons, findDay, if_neg hb]
      by_cases hd : p.1 = d
      · rw [if_pos hd, if_pos hd]
      · rw [if_neg hd, if_neg hd, ih]

theorem any_eq_isSome_findDay (d : String) (l : DayCounts) :
    (l.any fun p => p.1 == d) = (findDay d l).isSome := by
  induction l with
  | nil => simp [findDay]
  | cons p ps ih =>
    by_cases hb : p.1 = d <;> simp [findDay, hb, ih]

theorem map_fst_bump (dayOf : Int → String) (acc : DayCounts) (r : Record) :
    (bump dayOf acc r).map Prod.fst =
      if acc.any (fun p => p.1 == dayOf r.timestamp) then acc.map Prod.fst
      else acc.map Prod.fst ++ [dayOf r.timestamp] := by
  unfold bump
  cases ha : acc.any (fun p => p.1 == dayOf r.timestamp) <;>
    simp [ha] <;>
    intro a a1 b _ <;>
    by_cases hb : a = dayOf r.timestamp <;> simp [hb]

theorem findDay_bump_self (dayOf : Int → String) (acc : DayCounts) (r : Record) :
    findDay (dayOf r.timestamp) (bump dayOf acc r) =
      some (match findDay (dayOf r.timestamp) acc with
            | some v => bumpCounts (isNegative r.emotion) v
            | none => bumpCounts (isNegative r.emotion) (0, 0)) := by
  unfold bump
  cases ha : acc.any (fun p => p.1 == dayOf r.timestamp)
  · have hnone : findDay (dayOf r.timestamp) acc = none := by
      have h := any_eq_isSome_findDay (dayOf r.timestamp) acc
      rw [ha] at h
      exact Option.not_isSome_iff_eq_none.mp (by simp [← h])
    simp [ha, List.map_append, findDay_append_single,
      findDay_map_update_self, hnone]
  · have hsome : (findDay (dayOf r.timestamp) acc).isSome := by
      rw [← any_eq_isSome_findDay, ha]
    rcases Option.isSome_iff_exists.mp hsome with ⟨v, hv⟩
    simp [ha, findDay_map_update_self, hv]

theorem findDay_bump_ne (dayOf : Int → String) (acc : DayCounts) (r : Record)
    (d : String) (hne : dayOf r.timestamp ≠ d) :
    findDay d (bump dayOf acc r) = findDay d acc := by
  unfold bump
  dsimp only
  cases ha : acc.any (fun p => p.1 == dayOf r.timestamp)
  · rw [if_neg (by simp [ha])]
    rw [List.map_append]
    simp only [List.map_cons, List.map_nil, if_pos rfl, ite_true]
    rw [findDay_append_single, findDay_map_update_ne d _ hne, if_neg hne]
    cases findDay d acc <;> rfl
  · rw [if_pos (by simp [ha]), findDay_map_update_ne d _ hne]

theorem findDay_isSome_iff_mem_keys (d : String) (l : DayCounts) :
    (findDay d l).isSome = true ↔ d ∈ l.map Prod.fst := by
  induction l with
  | nil => simp [findDay]
  | cons p ps ih =>
    by_cases hb : p.1 = d
    · simp [findDay, hb]
    · have hb' : d ≠ p.1 := fun h => hb h.symm
      simp [findDay, hb, hb', ih]

theorem nodup_keys_foldl_bump (dayOf : Int → String) (rs : List Record)
    (acc : DayCounts) (h : (acc.map Prod.fst).Nodup) :
    ((rs.foldl (bump dayOf) acc).map Prod.fst).Nodup := by
  induction rs generalizing acc with
  | nil => exact h
  | cons r rs ih =>
    rw [List.foldl_cons]
    apply ih
    rw [map_fst_bump]
    cases ha : acc.any (fun p => p.1 == dayOf r.timestamp)
    · have hnotmem : dayOf r.timestamp ∉ acc.map Prod.fst := by
        intro hmem
        rcases List.mem_map.mp hmem with ⟨p, hp, hfst⟩
        have := List.any_eq_false.mp ha p hp
        simp [hfst] at this
      simp [List.nodup_append, h, hnotmem]
    · simpa using h

theorem spec_counts_cons_self (dayOf : Int → String) (r : Record)
    (rs : List Record) (d : String) (hd : dayOf r.timestamp = d) :
    spec_total_count dayOf d (r :: rs) = spec_total_count dayOf d rs + 1 ∧
    spec_negative_count dayOf d (r :: rs) =
      spec_negative_count dayOf d rs + (if isNegative r.emotion then 1 else 0) := by
  refine ⟨by simp [spec_total_count, List.countP_cons, hd], ?_⟩
  simp only [spec_negative_count, List.countP_cons, hd]
  cases isNegative r.emotion <;> simp

theorem spec_counts_cons_ne (dayOf : Int → String) (r : Record)
    (rs : List Record) (d : String) (hd : dayOf r.timestamp ≠ d) :
    spec_total_count dayOf d (r :: rs) = spec_total_count dayOf d rs ∧
    spec_negative_count dayOf d (r :: rs) = spec_negative_count dayOf d rs := by
  constructor <;>
    simp [spec_total_count, spec_negative_count, List.countP_cons, hd]

theorem findDay_foldl_bump (dayOf : Int → String) (rs : List Record)
    (acc : DayCounts) (d : String) :
    findDay d (rs.foldl (bump dayOf) acc) =
      match findDay d acc with
      | some v =>
        some (v.1 + spec_negative_count dayOf d rs,
              v.2 + spec_total_count dayOf d rs)
      | none =>
        if spec_total_count dayOf d rs = 0 then none
        else some (spec_negative_count dayOf d rs, spec_total_count dayOf d rs) := by
  induction rs generalizing acc with
  | nil =>
    simp only [List.foldl_nil, spec_total_count, spec_negative_count,
      List.countP_nil]
    cases findDay d acc <;> simp
  | cons r rs ih =>
    rw [List.foldl_cons, ih]
    by_cases hd : dayOf r.timestamp = d
    · obtain ⟨ht, hn⟩ := spec_counts_cons_self dayOf r rs d hd
      rw [ht, hn, ← hd, findDay_bump_self, hd]
      cases hacc : findDay d acc
      · have htot : ¬ (spec_total_count dayOf d rs + 1 = 0) := by omega
        simp only [bumpCounts]
        rw [if_neg htot]
        cases isNegative r.emotion <;> simp <;> omega
      · simp only [bumpCounts]
        cases isNegative r.emotion <;> simp [Prod.ext_iff] <;> omega
    · obtain ⟨ht, hn⟩ := spec_counts_cons_ne dayOf r rs d hd
      rw [ht, hn, findDay_bump_ne dayOf acc r d hd]

theorem findDay_foldl_bump_nil (dayOf : Int → String) (rs : List Record)
    (d : String) :
    findDay d (rs.foldl (bump dayOf) []) =
      if spec_total_count dayOf d rs = 0 then none
      else some (spec_negative_count dayOf d rs, spec_total_count dayOf d rs) := by
  rw [findDay_foldl_bump]
  rfl

theorem findDay_of_mem_of_nodup (l : DayCounts) (p : String × Nat × Nat)
    (hl : (l.map Prod.fst).Nodup) (hp : p ∈ l) : findDay p.1 l = some p.2 := by
  induction l with
  | nil => cases hp
  | cons q qs ih =>
    rcases List.mem_cons.mp hp with rfl | htail
    · simp [findDay]
    · have hfst : q.1 ≠ p.1 := by
        intro he
        have hq : q.1 ∉ qs.map Prod.fst := (List.nodup_cons.mp (by simpa using hl)).1
        exact hq (he ▸ List.mem_map.mpr ⟨p, htail, rfl⟩)
      have htl : (qs.map Prod.fst).Nodup := (List.nodup_cons.mp (by simpa using hl)).2
      simp [findDay, hfst, ih htl htail]

/-! ## The lexicographic string order used by `sorted` -/

theorem lexLe_total : ∀ as bs : List Char, lexLe as bs = true ∨ lexLe bs as = true
  | [], _ => Or.inl rfl
  | _ :: _, [] => Or.inr rfl
  | a :: as, b :: bs => by
    rcases Nat.lt_trichotomy a.toNat b.toNat with h | h | h
    · exact Or.inl (by simp [lexLe, h])
    · have h1 : ¬ a.toNat < b.toNat := by omega
      have h2 : ¬ b.toNat < a.toNat := by omega
      rcases lexLe_total as bs with hl | hl
      · exact Or.inl (by simp [lexLe, h1, h2, hl])
      · exact Or.inr (by simp [lexLe, h1, h2, hl])
    · exact Or.inr (by simp [lexLe, h])

theorem lexLe_trans : ∀ as bs cs : List Char,
    lexLe as bs = true → lexLe bs cs = true → lexLe as cs = true
  | [], _, _, _, _ => rfl
  | _ :: _, [], _, h1, _ => by simp [lexLe] at h1
  | _ :: _, _ :: _, [], _, h2 => by simp [lexLe] at h2
  | a :: as, b :: bs, c :: cs, h1, h2 => by
    rcases Nat.lt_trichotomy a.toNat b.toNat with hab | hab | hab
    · rcases Nat.lt_trichotomy b.toNat c.toNat with hbc | hbc | hbc
      · simp [lexLe, Nat.lt_trans hab hbc]
      · simp [lexLe, hbc ▸ hab]
      · simp [lexLe, hbc, (show ¬ b.toNat < c.toNat by omega)] at h2
    · rcases Nat.lt_trichotomy b.toNat c.toNat with hbc | hbc | hbc
      · simp [lexLe, hab ▸ hbc]
      · have h1' : lexLe as bs = true := by
          simpa [lexLe, (show ¬ a.toNat < b.toNat by omega),
            (show ¬ b.toNat < a.toNat by omega)] using h1
        have h2' : lexLe bs cs = true := by
          simpa [lexLe, (show ¬ b.toNat < c.toNat by omega),
            (show ¬ c.toNat < b.toNat by omega)] using h2
        simp [lexLe, (show ¬ a.toNat < c.toNat by omega),
          (show ¬ c.toNat < a.toNat by omega), lexLe_trans as bs cs h1' h2']
      · simp [lexLe, hbc, (show ¬ b.toNat < c.toNat by omega)] at h2
    · simp [lexLe, hab, (show ¬ a.toNat < b.toNat by omega)] at h1

instance : IsTotal (String × Nat × Nat) dayLE :=
  ⟨fun p q => lexLe_total p.1.data q.1.data⟩

instance : IsTrans (String × Nat × Nat) dayLE :=
  ⟨fun p q r h1 h2 => lexLe_trans p.1.data q.1.data r.1.data h1 h2⟩

/-! ## Claim theorems: trend aggregation -/

/-- C1:  the trend aggregation groups records by the calendar day of
their timestamp (`dayOf`, the server-time-zone day conversion), emits one
point per day (a day is emitted iff some record falls on it, each day once),
sorted strictly ascending by the date string (lexicographic code-point
order), whose `confusion_index` is the count of records of that day with a
negative emotion divided by the total count of records of that day, rounded
to 3 decimal places; the empty input yields the empty sequence, and the
worked `{day1: 2 negative of 4, day2: 0 negative of 3}` instance yields
`[{day1, 0.5}, {day2, 0.0}]`. -/
theorem C1_daily_trend_aggregation (dayOf : Int → String) (rs : List Record) :
    ((time_series_data dayOf rs).Pairwise fun p q =>
        strLeb p.date q.date = true ∧ p.date ≠ q.date)
    ∧ (∀ d : String,
        d ∈ (time_series_data dayOf rs).map TrendPoint.date ↔
          ∃ r ∈ rs, dayOf r.timestamp = d)
    ∧ (∀ p ∈ time_series_data dayOf rs,
        p.confusion_index =
          round3 (Rat.divInt (spec_negative_count dayOf p.date rs : ℤ)
            (spec_total_count dayOf p.date rs : ℤ)))
    ∧ time_series_data dayOf [] = []
    ∧ time_series_data exampleDayOf exampleRecords =
        [⟨"1970-01-01", 1/2⟩, ⟨"1970-01-02", 0⟩] := by
  have hout : time_series_data dayOf rs =
      ((rs.foldl (bump dayOf) []).insertionSort dayLE).map
        (fun p => ⟨p.1, round3 (Rat.divInt (p.2.1 : ℤ) (p.2.2 : ℤ))⟩) := by
    cases rs <;> rfl
  have hS_nodup : ((rs.foldl (bump dayOf) []).map Prod.fst).Nodup :=
    nodup_keys_foldl_bump dayOf rs [] List.nodup_nil
  have hperm : List.Perm ((rs.foldl (bump dayOf) []).insertionSort dayLE)
      (rs.foldl (bump dayOf) []) := List.perm_insertionSort dayLE _
  have hsorted : List.Sorted dayLE
      ((rs.foldl (bump dayOf) []).insertionSort dayLE) :=
    List.sorted_insertionSort dayLE _
  have hkeys_nodup :
      (((rs.foldl (bump dayOf) []).insertionSort dayLE).map Prod.fst).Nodup :=
    (hperm.map Prod.fst).nodup_iff.mpr hS_nodup
  refine ⟨?_, ?_, ?_, rfl, ?_⟩
  · rw [hout, List.pairwise_map]
    exact (hsorted.and (List.pairwise_map.mp hkeys_nodup)).imp
      fun h => ⟨h.1, h.2⟩
  · intro d
    simp only [hout, List.mem_map]
    constructor
    · rintro ⟨p, ⟨q, hq, rfl⟩, hdate⟩
      have hqS : q ∈ rs.foldl (bump dayOf) [] := hperm.mem_iff.mp hq
      have hfind := findDay_of_mem_of_nodup _ q hS_nodup hqS
      rw [findDay_foldl_bump_nil] at hfind
      by_cases h0 : spec_total_count dayOf q.1 rs = 0
      · rw [if_pos h0] at hfind
        cases hfind
      · have hpos : 0 < rs.countP fun r => dayOf r.timestamp == q.1 :=
          Nat.pos_of_ne_zero h0
        rcases List.countP_pos_iff.mp hpos with ⟨r, hr, hrq⟩
        exact ⟨r, hr, by rw [eq_of_beq hrq]; exact hdate⟩
    · rintro ⟨r, hr, rfl⟩
      have hpos : 0 < spec_total_count dayOf (dayOf r.timestamp) rs :=
        List.countP_pos_iff.mpr ⟨r, hr, by simp⟩
      have hfind := findDay_foldl_bump_nil dayOf rs (dayOf r.timestamp)
      rw [if_neg (Nat.pos_iff_ne_zero.mp hpos)] at hfind
      have hmemk : dayOf r.timestamp ∈
          (rs.foldl (bump dayOf) []).map Prod.fst :=
        (findDay_isSome_iff_mem_keys _ _).mp (by rw [hfind]; rfl)
      rcases List.mem_map.mp hmemk with ⟨q, hqS, hq1⟩
      exact ⟨_, ⟨q, hperm.mem_iff.mpr hqS, rfl⟩, hq1⟩
  · intro p hp
    rw [hout] at hp
    rcases List.mem_map.mp hp with ⟨q, hq, rfl⟩
    have hqS : q ∈ rs.foldl (bump dayOf) [] := hperm.mem_iff.mp hq
    have hfind := findDay_of_mem_of_nodup _ q hS_nodup hqS
    rw [findDay_foldl_bump_nil] at hfind
    by_cases h0 : spec_total_count dayOf q.1 rs = 0
    · rw [if_pos h0] at hfind
      cases hfind
    · rw [if_neg h0] at hfind
      have hq2 : q.2 =
          (spec_negative_count dayOf q.1 rs, spec_total_count dayOf q.1 rs) :=
        (Option.some_injective _ hfind).symm
      dsimp only
      rw [hq2]
  · have h : time_series_data exampleDayOf exampleRecords =
        [⟨"1970-01-01", Rat.divInt 500 1000⟩, ⟨"1970-01-02", Rat.divInt 0 1000⟩] := by
      decide
    rw [h]
    norm_num [Rat.divInt_eq_div]

/-- Witness for C1: the membership and index clauses evaluated on the worked
two-day example. -/
theorem C1_witness :
    ("1970-01-01" ∈
      (time_series_data exampleDayOf exampleRecords).map TrendPoint.date) ∧
    (∀ p ∈ time_series_data exampleDayOf exampleRecords,
      p.confusion_index =
        round3 (Rat.divInt (spec_negative_count exampleDayOf p.date exampleRecords : ℤ)
          (spec_total_count exampleDayOf p.date exampleRecords : ℤ))) :=
  ⟨((C1_daily_trend_aggregation exampleDayOf exampleRecords).2.1 "1970-01-01").mpr
      ⟨⟨10, "a", "Confused", "r"⟩, by decide, by decide⟩,
    (C1_daily_trend_aggregation exampleDayOf exampleRecords).2.2.1⟩

/-- C7:  in the trend aggregation, every entry of the `daily_data`
accumulator built by the record pass has `total_count ≥ 1`: a day entry is
only created when a record contributes to it, so the division
`negative_count / total_count` is never a division by zero. -/
theorem C7_emitted_days_have_positive_total (dayOf : Int → String)
    (rs : List Record) :
    ∀ p ∈ rs.foldl (bump dayOf) [], 1 ≤ p.2.2 := by
  intro p hp
  have hnodup : ((rs.foldl (bump dayOf) []).map Prod.fst).Nodup :=
    nodup_keys_foldl_bump dayOf rs [] List.nodup_nil
  have hfind := findDay_of_mem_of_nodup _ p hnodup hp
  rw [findDay_foldl_bump_nil] at hfind
  by_cases h0 : spec_total_count dayOf p.1 rs = 0
  · rw [if_pos h0] at hfind
    cases hfind
  · rw [if_neg h0] at hfind
    have hp2 : p.2 =
        (spec_negative_count dayOf p.1 rs, spec_total_count dayOf p.1 rs) :=
      (Option.some_injective _ hfind).symm
    rw [hp2]
    exact Nat.one_le_iff_ne_zero.mpr h0

/-- Witness for C7: the day entry built from a single record has
`total_count = 1 ≥ 1`. -/
theorem C7_witness :
    (("d", 1, 1) ∈ List.foldl (bump fun _ => "d") [] [⟨0, "a", "Confused", "r"⟩]) ∧
    1 ≤ (("d", 1, 1) : String × Nat × Nat).2.2 :=
  ⟨by decide,
    C7_emitted_days_have_positive_total (fun _ => "d")
      [⟨0, "a", "Confused", "r"⟩] ("d", 1, 1) (by decide)⟩

/-! ## Claim theorems: feedback store -/

/-- C2:  `load_data` returns `[]` and raises nothing whenever the backing
file is absent, has size zero, or fails to parse as JSON (the decode error is
caught and only logged). -/
theorem C2_load_robust {α : Type} (J : JsonLib α) (fs : FileState α)
    (h : fs = none ∨
      ∃ s, fs = some s ∧ (J.isEmpty s = true ∨ J.loads s = none)) :
    load_data J fs = [] := by
  rcases h with rfl | ⟨s, rfl, hs⟩
  · rfl
  · by_cases he : J.isEmpty s = true
    · simp [load_data, he]
    · rcases hs with hs | hs
      · exact absurd hs he
      · simp [load_data, he, hs]

/-- Witness for C2: a present file whose contents fail to parse loads as the
empty list. -/
theorem C2_witness :
    ((some "garbage" : FileState String) = none ∨
      ∃ s, (some "garbage" : FileState String) = some s ∧
        (demoStringJsonLib.isEmpty s = true ∨ demoStringJsonLib.loads s = none)) ∧
    load_data demoStringJsonLib (some "garbage") = [] :=
  ⟨Or.inr ⟨"garbage", rfl, Or.inr rfl⟩,
    C2_load_robust demoStringJsonLib (some "garbage")
      (Or.inr ⟨"garbage", rfl, Or.inr rfl⟩)⟩

theorem load_data_save_data {α : Type} (J : JsonLib α)
    (hRT : ∀ l, J.loads (J.dumps l) = some l)
    (hNE : ∀ l, J.isEmpty (J.dumps l) = false) (l : List Record) :
    load_data J (save_data J l) = l := by
  simp [load_data, save_data, hRT l, hNE l]

theorem load_data_foldl_appendRecord {α : Type} (J : JsonLib α)
    (hRT : ∀ l, J.loads (J.dumps l) = some l)
    (hNE : ∀ l, J.isEmpty (J.dumps l) = false)
    (rs : List Record) (fs : FileState α) :
    load_data J (rs.foldl (appendRecord J) fs) = load_data J fs ++ rs := by
  induction rs generalizing fs with
  | nil => simp
  | cons r rs ih =>
    rw [List.foldl_cons, ih, appendRecord, load_data_save_data J hRT hNE]
    simp

/-- C6:  append is monotonic and order-preserving.  Provided the JSON
collaborator round-trips (`loads` after `dumps` restores the list, and a
dumped list is never size zero), starting from a state that loads as the
empty store, after appending `r1 .. rN` in order, `load_data` returns exactly
`[r1, ..., rN]`. -/
theorem C6_append_monotonic {α : Type} (J : JsonLib α)
    (hRT : ∀ l, J.loads (J.dumps l) = some l)
    (hNE : ∀ l, J.isEmpty (J.dumps l) = false)
    (fs : FileState α) (hfs : load_data J fs = [])
    (rs : List Record) :
    load_data J (rs.foldl (appendRecord J) fs) = rs := by
  rw [load_data_foldl_appendRecord J hRT hNE, hfs, List.nil_append]

/-- Witness for C6: two concrete appends starting from an absent file. -/
theorem C6_witness :
    (∀ l, demoJsonLib.loads (demoJsonLib.dumps l) = some l) ∧
    (∀ l, demoJsonLib.isEmpty (demoJsonLib.dumps l) = false) ∧
    load_data demoJsonLib none = [] ∧
    load_data demoJsonLib
      ([demoRecord1, demoRecord2].foldl (appendRecord demoJsonLib) none) =
      [demoRecord1, demoRecord2] :=
  ⟨fun _ => rfl, fun _ => rfl, rfl,
    C6_append_monotonic demoJsonLib (fun _ => rfl) (fun _ => rfl) none rfl
      [demoRecord1, demoRecord2]⟩

/-! ## Claim theorems: feedback submission -/

/-- C3:  for a non-empty trimmed feedback text and a valid classification
response (the call succeeded with status 200 and its parsed object carries an
emotion from the fixed category set and a reasoning), `submit_feedback`
appends exactly one record — emotion from the fixed set, timestamp the
server-side current time `now` — and returns that record with status 200. -/
theorem C3_submit_appends_one_record {α : Type} (J : JsonLib α)
    (hRT : ∀ l, J.loads (J.dumps l) = some l)
    (hNE : ∀ l, J.isEmpty (J.dumps l) = false)
    (text : String) (now : Int) (fs : FileState α) (e r : String)
    (htext : pyStrip text ≠ "") (he : e ∈ EMOTION_CATEGORIES) :
    (submit_feedback J true (.ok ⟨some e, some r⟩) text now fs).resp =
      .recordJson ⟨now, pyStrip text, e, r⟩ 200 ∧
    load_data J (submit_feedback J true (.ok ⟨some e, some r⟩) text now fs).fs =
      load_data J fs ++ [⟨now, pyStrip text, e, r⟩] ∧
    (⟨now, pyStrip text, e, r⟩ : Record).emotion ∈ EMOTION_CATEGORIES ∧
    (⟨now, pyStrip text, e, r⟩ : Record).timestamp = now := by
  have hres : submit_feedback J true (.ok ⟨some e, some r⟩) text now fs =
      ⟨.recordJson ⟨now, pyStrip text, e, r⟩ 200,
        appendRecord J fs ⟨now, pyStrip text, e, r⟩, true⟩ := by
    simp [submit_feedback, classify_emotion_gemini, htext]
  refine ⟨by rw [hres], ?_, he, rfl⟩
  rw [hres]
  exact load_data_save_data J hRT hNE _

/-- Witness for C3: a concrete successful submission. -/
theorem C3_witness :
    pyStrip " nice class " ≠ "" ∧
    "Confused" ∈ EMOTION_CATEGORIES ∧
    (submit_feedback demoJsonLib true (.ok ⟨some "Confused", some "because"⟩)
        " nice class " 1000 none).resp =
      .recordJson ⟨1000, "nice class", "Confused", "because"⟩ 200 ∧
    load_data demoJsonLib
      (submit_feedback demoJsonLib true (.ok ⟨some "Confused", some "because"⟩)
        " nice class " 1000 none).fs =
      load_data demoJsonLib none ++ [⟨1000, "nice class", "Confused", "because"⟩] :=
  ⟨by decide, by decide,
    (C3_submit_appends_one_record demoJsonLib (fun _ => rfl) (fun _ => rfl)
      " nice class " 1000 none "Confused" "because" (by decide) (by decide)).1,
    (C3_submit_appends_one_record demoJsonLib (fun _ => rfl) (fun _ => rfl)
      " nice class " 1000 none "Confused" "because" (by decide) (by decide)).2.1⟩

/-- C5:  submitting feedback that is empty after trimming returns status
400 with the validation error payload, never invokes the external
classifier, and leaves the backing file untouched. -/
theorem C5_empty_feedback_rejected {α : Type} (J : JsonLib α)
    (clientOk : Bool) (call : CallOutcome) (text : String) (now : Int)
    (fs : FileState α) (h : pyStrip text = "") :
    submit_feedback J clientOk call text now fs =
      ⟨.errorJson "No feedback text provided." 400, fs, false⟩ := by
  simp [submit_feedback, h]

/-- Witness for C5: a whitespace-only submission evaluated concretely. -/
theorem C5_witness :
    pyStrip " \t\n " = "" ∧
    submit_feedback demoJsonLib true (.ok ⟨some "Confused", some "b"⟩)
        " \t\n " 1000 (some [demoRecord1]) =
      ⟨.errorJson "No feedback text provided." 400, some [demoRecord1], false⟩ :=
  ⟨by decide,
    C5_empty_feedback_rejected demoJsonLib true (.ok ⟨some "Confused", some "b"⟩)
      " \t\n " 1000 (some [demoRecord1]) (by decide)⟩

/-- C10:  when the classifier client failed to initialise (`client is
None`, modelled by `clientOk = false`), any submission with non-empty trimmed
feedback gets the 500 error payload of `classify_emotion_gemini`, nothing is
appended to the store, and no exception escapes. -/
theorem C10_client_none_yields_500 {α : Type} (J : JsonLib α)
    (call : CallOutcome) (text : String) (now : Int) (fs : FileState α)
    (h : pyStrip text ≠ "") :
    submit_feedback J false call text now fs =
      ⟨.payloadJson (.errorMsg "AI client not initialized (check API key).") 500,
        fs, true⟩ ∧
    (submit_feedback J false call text now fs).resp.statusOf = 500 := by
  have hres : submit_feedback J false call text now fs =
      ⟨.payloadJson (.errorMsg "AI client not initialized (check API key).") 500,
        fs, true⟩ := by
    simp [submit_feedback, classify_emotion_gemini, h]
  exact ⟨hres, by rw [hres]; rfl⟩

/-- Witness for C10: a concrete submission with the client uninitialised. -/
theorem C10_witness :
    pyStrip "good lecture" ≠ "" ∧
    (submit_feedback demoJsonLib false (.ok ⟨some "Confused", some "b"⟩)
        "good lecture" 7 (some [demoRecord1])).fs = some [demoRecord1] ∧
    (submit_feedback demoJsonLib false (.ok ⟨some "Confused", some "b"⟩)
        "good lecture" 7 (some [demoRecord1])).resp.statusOf = 500 :=
  ⟨by decide,
    by rw [(C10_client_none_yields_500 demoJsonLib (.ok ⟨some "Confused", some "b"⟩)
        "good lecture" 7 (some [demoRecord1]) (by decide)).1],
    (C10_client_none_yields_500 demoJsonLib (.ok ⟨some "Confused", some "b"⟩)
        "good lecture" 7 (some [demoRecord1]) (by decide)).2⟩

/-- C4 counterexample:  the code never validates the emotion returned by
a well-formed classification response against `EMOTION_CATEGORIES`
(`src/app.py` line 170 subscripts it directly).  A response carrying the
out-of-set emotion `"Angry"` is trusted: the caller gets status 200 (not
5xx) and a record is persisted, contradicting the claim. -/
theorem C4_counterexample :
    "Angry" ∉ EMOTION_CATEGORIES ∧
    ¬ 500 ≤ (submit_feedback demoJsonLib true (.ok ⟨some "Angry", some "grr"⟩)
        "hi" 5 none).resp.statusOf ∧
    (submit_feedback demoJsonLib true (.ok ⟨some "Angry", some "grr"⟩)
        "hi" 5 none).resp.statusOf = 200 ∧
    (submit_feedback demoJsonLib true (.ok ⟨some "Angry", some "grr"⟩)
        "hi" 5 none).fs ≠ none ∧
    load_data demoJsonLib
      (submit_feedback demoJsonLib true (.ok ⟨some "Angry", some "grr"⟩)
        "hi" 5 none).fs = [⟨5, "hi", "Angry", "grr"⟩] := by
  refine ⟨by decide, by decide, by decide, ?_, by decide⟩
  intro h
  cases h

/-- C4 amended:  when the external classification call itself fails —
client uninitialised (500), `APIError` (503), or any other exception
including an unparsable response body (500) — the caller gets that 5xx
payload and the backing file is untouched; when the call succeeds but the
parsed object lacks the `emotion` or `reasoning` key, the resulting
`KeyError` escapes (Flask turns it into a 500) and the backing file is
untouched.  An out-of-set emotion *value* in a well-formed response is not
treated as a failure: it is persisted with status 200 (see the
counterexample). -/
theorem C4_failures_leave_store_unchanged {α : Type} (J : JsonLib α)
    (text : String) (now : Int) (fs : FileState α)
    (h : pyStrip text ≠ "") :
    (submit_feedback J true .apiError text now fs =
      ⟨.payloadJson (.errorMsg "AI service temporarily unavailable.") 503,
        fs, true⟩) ∧
    (submit_feedback J true .otherError text now fs =
      ⟨.payloadJson
        (.errorMsg "An unexpected error occurred during processing.") 500,
        fs, true⟩) ∧
    (∀ call, (submit_feedback J false call text now fs).fs = fs ∧
      (submit_feedback J false call text now fs).resp.statusOf = 500) ∧
    (∀ resp : GeminiResponse, resp.emotion = none ∨ resp.reasoning = none →
      submit_feedback J true (.ok resp) text now fs =
        ⟨.unhandledException, fs, true⟩ ∧
      (submit_feedback J true (.ok resp) text now fs).resp.statusOf = 500) := by
  refine ⟨by simp [submit_feedback, classify_emotion_gemini, h],
    by simp [submit_feedback, classify_emotion_gemini, h],
    fun call => ?_, fun resp hresp => ?_⟩
  · have hres : submit_feedback J false call text now fs =
        ⟨.payloadJson
          (.errorMsg "AI client not initialized (check API key).") 500,
          fs, true⟩ := by
      simp [submit_feedback, classify_emotion_gemini, h]
    exact ⟨by rw [hres], by rw [hres]; rfl⟩
  · have hres : submit_feedback J true (.ok resp) text now fs =
        ⟨.unhandledException, fs, true⟩ := by
      rcases resp with ⟨he, hr⟩
      rcases hresp with hresp | hresp <;> subst hresp
      · simp [submit_feedback, classify_emotion_gemini, h]
      · cases he <;> simp [submit_feedback, classify_emotion_gemini, h]
    exact ⟨hres, by rw [hres]; rfl⟩

/-- Witness for the amended C4: a concrete `APIError` outcome and a concrete
response missing its `emotion` key. -/
theorem C4_witness :
    pyStrip "hi" ≠ "" ∧
    submit_feedback demoJsonLib true .apiError "hi" 5 (some [demoRecord1]) =
      ⟨.payloadJson (.errorMsg "AI service temporarily unavailable.") 503,
        some [demoRecord1], true⟩ ∧
    submit_feedback demoJsonLib true (.ok ⟨none, some "grr"⟩) "hi" 5
        (some [demoRecord1]) =
      ⟨.unhandledException, some [demoRecord1], true⟩ :=
  ⟨by decide,
    (C4_failures_leave_store_unchanged demoJsonLib "hi" 5 (some [demoRecord1])
      (by decide)).1,
    ((C4_failures_leave_store_unchanged demoJsonLib "hi" 5 (some [demoRecord1])
      (by decide)).2.2.2 ⟨none, some "grr"⟩ (Or.inl rfl)).1⟩

/-! ## Claim theorems: CSV export -/

/-- C8:  for a non-empty store the CSV export is the header row
`timestamp,feedback,emotion,reasoning` followed by one row per record with
the field values in that column order, returned as the attachment content;
for an empty store it is the plain-text 404 with no CSV content.  The third
clause evaluates the one-record example from the spec. -/
theorem C8_csv_export (rs : List Record) (h : rs ≠ []) :
    download_csv rs =
      .file (csvRow ["timestamp", "feedback", "emotion", "reasoning"] ++
        String.join (rs.map recordCsvRow)) ∧
    download_csv [] = .noData "No data available to download." 404 ∧
    download_csv [⟨1000, "ok", "Confused", "r"⟩] =
      .file "timestamp,feedback,emotion,reasoning\r\n1000,ok,Confused,r\r\n" := by
  refine ⟨?_, by decide, by decide⟩
  rw [download_csv, if_neg (by simp [h])]

/-- Witness for C8: the export of a concrete one-record store. -/
theorem C8_witness :
    ([demoRecord1] : List Record) ≠ [] ∧
    download_csv [demoRecord1] =
      .file (csvRow ["timestamp", "feedback", "emotion", "reasoning"] ++
        String.join ([demoRecord1].map recordCsvRow)) :=
  ⟨by decide, (C8_csv_export [demoRecord1] (by decide)).1⟩

/-! ## Claim theorems: save discipline -/

/-- C9 (the claim is refuted; the spec is the intent and the code a
slip): `save_data` opens `data.json` with mode `"w"`, an in-place
truncate-then-write, not a write-then-replace.  The observable trace of file
states therefore begins with a truncated (size-zero) state, which loads as
the empty store — a concurrent reader can observe a partially written store,
and the trace is not the single atomic transition `[save_data J data]` a
write-then-replace discipline would expose. -/
theorem C9_save_is_truncate_then_write {α : Type} (J : JsonLib α)
    (truncated : α) (hE : J.isEmpty truncated = true) (data : List Record) :
    (save_data_trace J truncated data).head? = some (some truncated) ∧
    load_data J (some truncated) = [] ∧
    save_data_trace J truncated data ≠ [save_data J data] := by
  refine ⟨rfl, by simp [load_data, hE], ?_⟩
  intro hcontra
  have hlen : (save_data_trace J truncated data).length = 1 := by
    rw [hcontra]
    rfl
  simp [save_data_trace] at hlen

/-- Witness for C9: the truncated state observed during a concrete save. -/
theorem C9_witness :
    demoStringJsonLib.isEmpty "" = true ∧
    (save_data_trace demoStringJsonLib "" [demoRecord1]).head? =
      some (some "") ∧
    load_data demoStringJsonLib (some "") = [] ∧
    save_data_trace demoStringJsonLib "" [demoRecord1] ≠
      [save_data demoStringJsonLib [demoRecord1]] :=
  ⟨by decide,
    C9_save_is_truncate_then_write demoStringJsonLib "" (by decide) [demoRecord1]⟩

end EduMood
